import Mathlib

/-!
Verification of the wecom_task recurring-dispatch scheduler.

This file is a shallow embedding of the scheduler core of the repository:

* `backend/plugin/wecom_task/service/schedule_utils.py`
  (`parse_schedule_time`, `calculate_next_run_time`),
* `backend/plugin/wecom_task/service/tasks.py`
  (`check_due_tasks`, `execute_wecom_task`),
* `backend/plugin/wecom_task/tasks.py` (`_check_due_tasks`, `execute_task`),
* `backend/plugin/wecom_task/crud/crud_wecom_task.py` (`update_next_run_time`),
* `backend/plugin/wecom_task/service/wecom_webhook.py` (`upload_media`),
* `backend/plugin/wecom_task/service/wecom_task_service.py` (`create_task`),
* `backend/plugin/wecom_task/api/v1/wecom.py` (`create_wecom_task`),
* `backend/plugin/wecom_task/schema/schema_wecom_task.py` (`WecomTaskCreate`).

Python strings are embedded as Lean `String`s; Python exceptions as an
explicit `Except PyExc` result type; the database as a `List WecomTask`;
network and clock effects as explicit environment records.  The external
`croniter` library (not part of the repository) is modelled from its
documented grammar and semantics where the repository depends on it.
-/

/-! ## Python string primitives

Faithful embeddings of the Python `str` operations the scheduler uses:
`split` (with and without a separator), `strip`, `lower`, `replace`,
substring membership (`in`), and the `int()` constructor.
-/

/-- Python whitespace for `str.split()` / `str.strip()`:
space, tab, newline, carriage return, vertical tab, form feed. -/
def pyIsSpace (c : Char) : Bool :=
  c == ' ' || c == '\t' || c == '\n' || c == '\r' || c == '\x0b' || c == '\x0c'

/-- Whether `pat` is an initial run of `l` (used to locate substring matches). -/
def leadMatch : List Char → List Char → Bool
  | [], _ => true
  | _ :: _, [] => false
  | a :: l1, b :: l2 => a == b && leadMatch l1 l2

/-- Whether `pat` occurs as a contiguous run somewhere in `l`
(Python `pat in s` on strings). -/
def listHas (pat : List Char) : List Char → Bool
  | [] => leadMatch pat []
  | c :: cs => leadMatch pat (c :: cs) || listHas pat cs

/-- Python `needle in hay` for strings. -/
def pyIn (needle hay : String) : Bool :=
  listHas needle.data hay.data

/-- Worker for `str.split()` without arguments: split on runs of whitespace,
dropping empty tokens.  `cur` is the current token accumulated in reverse. -/
def wsSplitGo (cur : List Char) : List Char → List (List Char)
  | [] => if cur.isEmpty then [] else [cur.reverse]
  | c :: cs =>
    if pyIsSpace c then
      if cur.isEmpty then wsSplitGo [] cs else cur.reverse :: wsSplitGo [] cs
    else wsSplitGo (c :: cur) cs

/-- Python `s.split()` (no separator): whitespace runs, empties dropped. -/
def pySplitWs (s : String) : List String :=
  (wsSplitGo [] s.data).map String.mk

/-- Worker for `str.split(sep)` with a non-empty separator `pat`:
leftmost, non-overlapping matches.  Fuel-structural so the kernel can
evaluate it; each step consumes at least one character, so fuel equal to
the input length is always sufficient. -/
def sepSplitGo (pat cur : List Char) : Nat → List Char → List (List Char)
  | _, [] => [cur.reverse]
  | 0, l => [cur.reverse ++ l]
  | fuel + 1, c :: cs =>
    if leadMatch pat (c :: cs) then
      cur.reverse :: sepSplitGo pat [] fuel (cs.drop (pat.length - 1))
    else
      sepSplitGo pat (c :: cur) fuel cs

/-- Python `s.split(sep)`.  All call sites in the repository pass a non-empty
literal separator; an empty separator (a `ValueError` in Python) is embedded
as the identity split. -/
def pySplit (s sep : String) : List String :=
  match sep.data with
  | [] => [s]
  | pat => (sepSplitGo pat [] s.data.length s.data).map String.mk

/-- Worker for `str.replace(old, new)` with non-empty `old = pat`:
leftmost, non-overlapping matches, all occurrences replaced.
Fuel-structural with the same sufficiency argument as `sepSplitGo`. -/
def replGo (pat rep : List Char) : Nat → List Char → List Char
  | _, [] => []
  | 0, l => l
  | fuel + 1, c :: cs =>
    if leadMatch pat (c :: cs) then
      rep ++ replGo pat rep fuel (cs.drop (pat.length - 1))
    else
      c :: replGo pat rep fuel cs

/-- Python `s.replace(old, new)`.  Call sites only pass non-empty `old`. -/
def pyReplace (s old new : String) : String :=
  match old.data with
  | [] => s
  | pat => String.mk (replGo pat new.data s.data.length s.data)

/-- Python `s.strip()`: remove leading and trailing whitespace. -/
def pyStrip (s : String) : String :=
  String.mk (((s.data.dropWhile pyIsSpace).reverse.dropWhile pyIsSpace).reverse)

/-- Python `s.lower()` restricted to ASCII case mapping; the scheduler only
ever lowercases schedule descriptors, whose non-ASCII characters (CJK) are
unaffected by `str.lower`. -/
def pyLower (s : String) : String :=
  String.mk (s.data.map fun c =>
    if 'A' ≤ c && c ≤ 'Z' then Char.ofNat (c.toNat + 32) else c)

/-- Digit-run parser for `int()`: digits with optional single underscores
strictly between digits (Python 3.6+ literal grouping). -/
def intDigitsGo (acc : Nat) : List Char → Option Nat
  | [] => some acc
  | '_' :: c :: cs =>
    if c.isDigit then intDigitsGo (acc * 10 + (c.toNat - 48)) cs else none
  | ['_'] => none
  | c :: cs =>
    if c.isDigit then intDigitsGo (acc * 10 + (c.toNat - 48)) cs else none

/-- Non-empty digit run (first character must be a digit). -/
def intDigitsFrom : List Char → Option Nat
  | [] => none
  | c :: cs => if c.isDigit then intDigitsGo (c.toNat - 48) cs else none

/-- Python `int(s)`: surrounding whitespace stripped, optional sign, ASCII
decimal digits (non-ASCII digit forms are out of scope for this codebase);
`none` embeds the `ValueError` every caller catches with `except ValueError`. -/
def pyInt (s : String) : Option Int :=
  match (pyStrip s).data with
  | '-' :: rest => (intDigitsFrom rest).map fun n => -(n : Int)
  | '+' :: rest => (intDigitsFrom rest).map fun n => (n : Int)
  | rest => (intDigitsFrom rest).map fun n => (n : Int)

/-- Python `' '.join(parts)`. -/
def joinSpaces (parts : List String) : String :=
  String.intercalate " " parts

/-! ## Python exceptions -/

/-- The Python exception values the embedded code can raise or observe.
`valueError` also covers croniter's `CroniterBadCronError` and
`CroniterBadDateError`, both subclasses of `ValueError`. -/
inductive PyExc where
  | valueError (msg : String)
  | fileNotFound (msg : String)
  | attributeError (msg : String)
  | typeError (msg : String)
  | httpException (statusCode : Nat) (detail : String)
  | serverError (msg : String)
  | exc (msg : String)
deriving DecidableEq, Repr

/-- Python `str(e)` for the exceptions above (`HTTPException` renders its
detail; `ServerError` its message). -/
def excMsg : PyExc → String
  | .valueError m => m
  | .fileNotFound m => m
  | .attributeError m => m
  | .typeError m => m
  | .httpException _ d => d
  | .serverError m => m
  | .exc m => m

/-! ## Model of the external croniter library

`schedule_utils.py` delegates cron validation and next-fire computation to
the third-party `croniter` package (not part of this repository).  The model
below follows croniter's documented grammar: 5 fields
(minute, hour, day-of-month, month, day-of-week) or 6 fields with seconds
last; field ranges minute 0-59, hour 0-23, day 1-31, month 1-12,
day-of-week 0-7 (7 ≡ Sunday ≡ 0), second 0-59; items are comma lists of
`*`, single values, `a-b` ranges, each with an optional `/step`, with
`jan..dec` / `sun..sat` aliases; an out-of-range or malformed field raises
`CroniterBadCronError`, a `ValueError` subclass (so every construction
failure is a `ValueError`).  The `l`/`#` extensions and the 7-field form
are outside this model (treated as invalid); no claim depends on them.
When both day fields are restricted the day-of-month and day-of-week
conditions are OR-ed, as in Unix cron and croniter's default `day_or`.
`get_next` is modelled by its contract: the least instant strictly after
the start that matches the expression, with a bounded search horizon whose
exhaustion raises `CroniterBadDateError` (also a `ValueError`).
Errors carry `String` messages only: the type records that croniter can
only raise `ValueError` subclasses, which is what
`parse_schedule_time`'s `except ValueError` relies on.
-/

/-- Inclusive numeric range of each cron field, indexed
minute, hour, day-of-month, month, day-of-week, second. -/
def cronRange : Nat → Nat × Nat
  | 0 => (0, 59)
  | 1 => (0, 23)
  | 2 => (1, 31)
  | 3 => (1, 12)
  | 4 => (0, 7)
  | _ => (0, 59)

/-- Month-name aliases accepted in the month field. -/
def monthAlias : List (String × Nat) :=
  [("jan", 1), ("feb", 2), ("mar", 3), ("apr", 4), ("may", 5), ("jun", 6),
   ("jul", 7), ("aug", 8), ("sep", 9), ("oct", 10), ("nov", 11), ("dec", 12)]

/-- Weekday-name aliases accepted in the day-of-week field. -/
def dowAlias : List (String × Nat) :=
  [("sun", 0), ("mon", 1), ("tue", 2), ("wed", 3), ("thu", 4),
   ("fri", 5), ("sat", 6)]

/-- Resolve one scalar token of field `idx` to a number: a decimal integer
or (for month / day-of-week) a name alias, then the range check. -/
def cronScalar (idx : Nat) (tok : String) : Except String Nat :=
  let viaAlias : Option Nat :=
    if idx == 3 then (monthAlias.lookup (pyLower tok))
    else if idx == 4 then (dowAlias.lookup (pyLower tok))
    else none
  let num : Option Int :=
    match viaAlias with
    | some n => some (n : Int)
    | none => pyInt tok
  match num with
  | none => .error ("[" ++ tok ++ "] is not acceptable")
  | some v =>
    let (lo, hi) := cronRange idx
    if v < (lo : Int) || v > (hi : Int) then
      .error ("[" ++ tok ++ "] is not acceptable, out of range")
    else
      .ok v.toNat

/-- Every `step`-th value of `lo..hi` starting at `lo`. -/
def stepRange (lo hi step : Nat) : List Nat :=
  (List.range (hi + 1 - lo)).filterMap fun i =>
    if i % step == 0 then some (lo + i) else none

/-- Expand one comma-separated item of field `idx` into its value list.
Day-of-week values are reduced mod 7 (croniter folds 7 onto Sunday = 0). -/
def cronItem (idx : Nat) (item : String) : Except String (List Nat) := do
  let (base, step) ←
    match pySplit item "/" with
    | [b] => pure (b, 1)
    | [b, st] =>
      match pyInt st with
      | some v =>
        if v ≤ 0 then .error ("[" ++ item ++ "] step must be positive")
        else pure (b, v.toNat)
      | none => .error ("[" ++ item ++ "] is not acceptable")
    | _ => .error ("[" ++ item ++ "] is not acceptable")
  let (lo, hi) := cronRange idx
  let vals ←
    if base == "*" then
      pure (stepRange lo hi step)
    else
      match pySplit base "-" with
      | [a, b] => do
        let va ← cronScalar idx a
        let vb ← cronScalar idx b
        if va > vb then .error ("[" ++ item ++ "] is not acceptable")
        else pure (stepRange va vb step)
      | _ => do
        let v ← cronScalar idx base
        pure (stepRange v (if step == 1 then v else hi) step)
  if idx == 4 then pure (vals.map (· % 7)) else pure vals

/-- Expand a whole field (comma list) of field `idx`. -/
def cronField (idx : Nat) (f : String) : Except String (List Nat) := do
  match pySplit f "," with
  | [] => .error "empty field"
  | items =>
    let expanded ← items.mapM (cronItem idx)
    pure expanded.flatten

/-- A validated cron expression: the allowed value set of each field plus
the star flags the day-matching rule needs. -/
structure CronSpec where
  minute : List Nat
  hour : List Nat
  dom : List Nat
  month : List Nat
  dow : List Nat
  second : List Nat
  domStar : Bool
  dowStar : Bool
deriving DecidableEq, Repr

/-- croniter construction: tokenize into 5 fields (or 6 with trailing
seconds), expand and range-check each.  Any failure is a
`CroniterBadCronError`, i.e. a `ValueError`. -/
def croniterParse (expr : String) : Except String CronSpec := do
  let parts := pySplitWs expr
  match parts with
  | [mi, h, dm, mo, dw] => do
    let miV ← cronField 0 mi
    let hV ← cronField 1 h
    let dmV ← cronField 2 dm
    let moV ← cronField 3 mo
    let dwV ← cronField 4 dw
    pure ⟨miV, hV, dmV, moV, dwV, [0], dm == "*", dw == "*"⟩
  | [mi, h, dm, mo, dw, sec] => do
    let miV ← cronField 0 mi
    let hV ← cronField 1 h
    let dmV ← cronField 2 dm
    let moV ← cronField 3 mo
    let dwV ← cronField 4 dw
    let secV ← cronField 5 sec
    pure ⟨miV, hV, dmV, moV, dwV, secV, dm == "*", dw == "*"⟩
  | _ => .error "Exactly 5 or 6 columns has to be specified for iterator expression."

/-! ### Instants

An instant is a count of seconds since 2000-01-01 00:00:00 (a Saturday).
The civil-calendar conversion is the standard days-to-(y, m, d) algorithm
(Gregorian, era-based); only month, day-of-month and weekday feed the cron
match.  Time zones and DST are outside the model: the repository stores and
compares naive local datetimes throughout.
-/

/-- Days `z` since 2000-01-01 to (month, day) in the Gregorian calendar
(the year only influences leap handling and is folded into the
computation). -/
def civilMonthDay (z : Nat) : Nat × Nat :=
  let zd := z + 10957 + 719468
  let era := zd / 146097
  let doe := zd - era * 146097
  let yoe := (doe - doe / 1460 + doe / 36524 - doe / 146096) / 365
  let doy := doe - (365 * yoe + yoe / 4 - yoe / 100)
  let mp := (5 * doy + 2) / 153
  let d := doy - (153 * mp + 2) / 5 + 1
  let m := if mp < 10 then mp + 3 else mp - 9
  (m, d)

/-- Cron weekday (0 = Sunday) of day `z` since 2000-01-01 (a Saturday). -/
def civilDow (z : Nat) : Nat :=
  (z + 6) % 7

/-- Whether instant `t` satisfies the expression: second, minute, hour and
month by membership; the two day fields by croniter's `day_or` rule
(a restricted day-of-month OR-ed with a restricted day-of-week; a `*` field
defers to the other). -/
def cronMatch (spec : CronSpec) (t : Nat) : Bool :=
  let days := t / 86400
  let (mo, dm) := civilMonthDay days
  let dayOk :=
    if spec.domStar && spec.dowStar then true
    else if spec.domStar then spec.dow.contains (civilDow days)
    else if spec.dowStar then spec.dom.contains dm
    else spec.dom.contains dm || spec.dow.contains (civilDow days)
  spec.second.contains (t % 60) &&
  spec.minute.contains (t / 60 % 60) &&
  spec.hour.contains (t / 3600 % 24) &&
  spec.month.contains mo &&
  dayOk

/-- Search horizon of `get_next` (seconds): croniter gives up after a
bounded number of years and raises `CroniterBadDateError`. -/
def croniterHorizon : Nat := 60 * 60 * 24 * 366 * 55

/-- Linear search for the first matching instant at or after `u`. -/
def searchSec (spec : CronSpec) : Nat → Nat → Option Nat
  | _, 0 => none
  | u, fuel + 1 => if cronMatch spec u then some u else searchSec spec (u + 1) fuel

/-- croniter `get_next(datetime)` from start `t`: the least matching instant
strictly after `t`, as an `Except` whose error is the
`CroniterBadDateError` raised when the horizon is exhausted. -/
def croniterGetNext (spec : CronSpec) (t : Nat) : Except String Nat :=
  match searchSec spec (t + 1) croniterHorizon with
  | some r => .ok r
  | none => .error "failed to find next date"

/-! ## schedule_utils.py

`parse_schedule_time` translates a schedule descriptor (cron string or
natural-language phrase) into a cron expression; `calculate_next_run_time`
computes the next fire instant.  The embedding mirrors the source
line by line; `Except PyExc` makes every raise/except path explicit.
-/

/-- Message of the `ValueError` raised by `a, b = l` when `l` has more than
two elements. -/
def tooManyMsg : String := "too many values to unpack (expected 2)"

/-- Message of the `ValueError` raised by `a, b = l` when `l` has fewer than
two elements. -/
def notEnoughMsg : String := "not enough values to unpack (expected 2)"

/-- Python tuple unpacking `a, b = l`.  Raises `ValueError` unless `l` has
exactly two elements. -/
def unpack2 (l : List String) : Except PyExc (String × String) :=
  match l with
  | [a, b] => .ok (a, b)
  | [] => .error (.valueError notEnoughMsg)
  | [_] => .error (.valueError notEnoughMsg)
  | _ => .error (.valueError tooManyMsg)

/-- The colon handling shared by the three natural-language branches
(schedule_utils.py lines 56-59, 79-82, 100-103):

    if ":" in hour:
        hour, minute = hour.split(":")
    elif "：" in hour:
        hour, minute = hour.split("：")

This sits OUTSIDE the surrounding `try`, so its `ValueError` propagates. -/
def parseHM (hour minute : String) : Except PyExc (String × String) :=
  if pyIn ":" hour then unpack2 (pySplit hour ":")
  else if pyIn "：" hour then unpack2 (pySplit hour "：")
  else .ok (hour, minute)

/-- The f-string `f"0 {minute} {hour} * * ?"` (line 63). -/
def fmtDaily (m h : Int) : String :=
  "0 " ++ toString m ++ " " ++ toString h ++ " * * ?"

/-- The f-string `f"0 {minute} {hour} ? * {value}"` (line 86). -/
def fmtWeekly (m h : Int) (value : String) : String :=
  "0 " ++ toString m ++ " " ++ toString h ++ " ? * " ++ value

/-- The f-string `f"0 {minute} {hour} {day} * ?"` (line 108). -/
def fmtMonthly (m h d : Int) : String :=
  "0 " ++ toString m ++ " " ++ toString h ++ " " ++ toString d ++ " * ?"

/-- The hour/minute block the daily and weekly branches repeat verbatim
(schedule_utils.py lines 53-65 and 76-88): require the `"点"` marker, split
the text before it, run the (raising) colon handling, and convert with
`int()` under `try: ... except ValueError: pass` — a conversion failure
falls through (`.ok none`), a colon-unpacking failure propagates.
`mk` is the branch's f-string over the parsed minute and hour. -/
def dianTimeCase (time_parts : String) (mk : Int → Int → String) :
    Except PyExc (Option String) :=
  if pyIn "点" time_parts then
    let hour := pyStrip ((pySplit time_parts "点").getD 0 "")
    match parseHM hour "0" with
    | .error e => .error e
    | .ok (h, m) =>
      match pyInt h, pyInt m with
      | some hv, some mv => .ok (some (mk mv hv))
      | _, _ => .ok none
  else .ok none

/-- schedule_utils.py lines 51-65, the `"每天"` (daily) block.
`.ok none` means the block fell through without returning
(no `"点"` marker, or `int()` raised and was swallowed by `except
ValueError: pass`); `.error` is the uncaught colon-unpacking `ValueError`. -/
def dailyBranch (s : String) : Except PyExc (Option String) :=
  if pyIn "每天" s then
    dianTimeCase (pyStrip ((pySplit s "每天").getD 1 "")) fmtDaily
  else .ok none

/-- The `week_map` dict of schedule_utils.py lines 69-72, in insertion
(= iteration) order. -/
def weekMap : List (String × String) :=
  [("一", "1"), ("二", "2"), ("三", "3"), ("四", "4"), ("五", "5"),
   ("六", "6"), ("日", "0"), ("天", "0"),
   ("1", "1"), ("2", "2"), ("3", "3"), ("4", "4"), ("5", "5"),
   ("6", "6"), ("7", "0"), ("0", "0")]

/-- Body of one `week_map` iteration whose guard matched
(schedule_utils.py lines 75-88): `[-1]` takes the last split fragment. -/
def weekDayCase (s day value : String) : Except PyExc (Option String) :=
  dianTimeCase
    (if pyIn ("每周" ++ day) s then pyStrip ((pySplit s ("每周" ++ day)).getLastD "")
     else pyStrip ((pySplit s ("每星期" ++ day)).getLastD ""))
    (fun m h => fmtWeekly m h value)

/-- The `for day, value in week_map.items()` loop (lines 73-88):
first matching day wins; a fallen-through iteration continues the loop. -/
def weekLoop (s : String) : List (String × String) → Except PyExc (Option String)
  | [] => .ok none
  | (day, value) :: rest =>
    if pyIn ("每周" ++ day) s || pyIn ("每星期" ++ day) s then
      match weekDayCase s day value with
      | .error e => .error e
      | .ok (some r) => .ok (some r)
      | .ok none => weekLoop s rest
    else weekLoop s rest

/-- schedule_utils.py lines 68-88, the weekly block with its outer guard. -/
def weekBranch (s : String) : Except PyExc (Option String) :=
  if pyIn "每周" s || pyIn "每星期" s then weekLoop s weekMap
  else .ok none

/-- schedule_utils.py lines 91-110, the `"每月"` (monthly) block.
`hour` and `minute` start as `"0"`; the `"点"` sub-block may overwrite them
and may raise through the colon unpacking. -/
def monthBranch (s : String) : Except PyExc (Option String) :=
  if pyIn "每月" s then
    let day_parts := pyStrip ((pySplit s "每月").getD 1 "")
    if pyIn "号" day_parts then
      let day := pyStrip ((pySplit day_parts "号").getD 0 "")
      let time_parts := pyStrip ((pySplit day_parts "号").getD 1 "")
      let hm : Except PyExc (String × String) :=
        if pyIn "点" time_parts then
          let hour := pyStrip ((pySplit time_parts "点").getD 0 "")
          parseHM hour "0"
        else .ok ("0", "0")
      match hm with
      | .error e => .error e
      | .ok (h, m) =>
        match pyInt day, pyInt h, pyInt m with
        | some dv, some hv, some mv => .ok (some (fmtMonthly mv hv dv))
        | _, _, _ => .ok none
    else .ok none
  else .ok none

/-- The natural-language part of `parse_schedule_time`
(lines 50-113, after the `lower()` of line 48): daily, then weekly, then
monthly, then the fallback `"0 0 0 * * ?"` of line 113. -/
def nlBranches (s : String) : Except PyExc String :=
  match dailyBranch s with
  | .error e => .error e
  | .ok (some r) => .ok r
  | .ok none =>
    match weekBranch s with
    | .error e => .error e
    | .ok (some r) => .ok r
    | .ok none =>
      match monthBranch s with
      | .error e => .error e
      | .ok (some r) => .ok r
      | .ok none => .ok "0 0 0 * * ?"

/-- `parse_schedule_time` (schedule_utils.py lines 12-113).
A 5- or 6-token input is treated as cron (a 6-token input first loses its
seconds field, and that truncated string is what later stages see, even on
fall-through); croniter validation failure is caught by `except ValueError`
and falls through to the natural-language branches applied to the
lowercased current string.  On successful validation, a literal `"0"`
day-of-month or month field is coerced to `"1"` and the five fields are
re-joined with single spaces. -/
def parse_schedule_time (schedule_time : String) : Except PyExc String :=
  let parts := pySplitWs schedule_time
  if parts.length == 5 || parts.length == 6 then
    let st := if parts.length == 6 then joinSpaces parts.tail else schedule_time
    match croniterParse st with
    | .ok _ =>
      match pySplitWs st with
      | minute :: hour :: dom :: mon :: dow :: _ =>
        let dom := if dom == "0" then "1" else dom
        let mon := if mon == "0" then "1" else mon
        .ok (minute ++ " " ++ hour ++ " " ++ dom ++ " " ++ mon ++ " " ++ dow)
      | _ => .ok st
    | .error _ => nlBranches (pyLower st)
  else nlBranches (pyLower schedule_time)

/-- Body of `calculate_next_run_time` (schedule_utils.py lines 123-132)
before the blanket `except Exception`: replace `?` by `*`, construct the
croniter iterator, take its next value.  Both failure modes are croniter
`ValueError` subclasses, carried as messages. -/
def calcBody (cron_expression : String) (now : Nat) : Except String Nat := do
  let ce := pyReplace cron_expression "?" "*"
  let spec ← croniterParse ce
  croniterGetNext spec now

/-- `calculate_next_run_time` (schedule_utils.py lines 116-135): the body
under `except Exception: return None`, so no exception ever escapes; the
reference instant `now` stands for the `datetime.now()` of line 128. -/
def calculate_next_run_time (cron_expression : String) (now : Nat) : Option Nat :=
  match calcBody cron_expression now with
  | .ok r => some r
  | .error _ => none

/-! ## Data model

`WecomTask` embeds the ORM row of `model_wecom_task.py` (the columns the
scheduler core reads or writes; `uuid` and the audit timestamps are
irrelevant to every claim and omitted).  Instants are the `Nat` seconds of
the croniter model. -/

/-- A `wecom_task` row. -/
structure WecomTask where
  id : Nat
  name : String
  webhook_url : String
  message_content : String
  cron_expression : String
  message_type : String
  file_path : Option String
  next_run_time : Option Nat
  status : Int
deriving DecidableEq, Repr

/-- A parsed webhook JSON response: the `errcode` / `errmsg` fields the
callers read with `.get`. -/
structure WeComResp where
  errcode : Option Int
  errmsg : Option String
deriving DecidableEq, Repr

/-- Python truthiness of `Optional[str]` (`if not task.file_path` is true
for both `None` and the empty string). -/
def pyFalsyOptStr : Option String → Bool
  | none => true
  | some s => s == ""

/-- The dict returned by the task-execution entry points:
`{"success": ..., "message": ..., "data": result?}`. -/
structure ExecResult where
  success : Bool
  message : String
  data : Option WeComResp
deriving DecidableEq, Repr

/-- An outbound webhook HTTP request, identified by its payload shape
(`wecom_webhook.py`): the plain-send bodies, and the media upload POST. -/
inductive SendReq where
  | text (url content : String)
  | markdown (url content : String)
  | image (url b64 md5 : String)
  | file (url media_id : String)
  | uploadMedia (url path : String)
deriving DecidableEq, Repr

/-! ## crud_wecom_task.py: update_next_run_time -/

/-- The SQL `UPDATE wecom_task SET next_run_time = :v WHERE id = :id`
executed by `CRUDWecomTask.update_next_run_time` (crud_wecom_task.py lines
118-125): every row satisfying the predicate gets exactly the one column
assigned; the result carries the new table and the row count. -/
def sqlUpdateWhere (db : List WecomTask) (cond : WecomTask → Bool)
    (assign : WecomTask → WecomTask) : List WecomTask × Nat :=
  (db.map fun r => if cond r then assign r else r, (db.filter cond).length)

/-- `CRUDWecomTask.update_next_run_time` (crud_wecom_task.py lines 104-125):
single-column update keyed on `id`, commit, and `rowcount > 0` as the
returned success flag. -/
def update_next_run_time (db : List WecomTask) (task_id : Nat) (nrt : Nat) :
    List WecomTask × Bool :=
  let (db2, rowcount) :=
    sqlUpdateWhere db (fun r => r.id == task_id)
      (fun r => { r with next_run_time := some nrt })
  (db2, rowcount > 0)

/-! ## service/tasks.py: the Celery entry points

Network and filesystem effects are abstracted into an environment:
`respond` answers one webhook request (transport failures are `Except`
errors, destination-level failures are responses with non-zero `errcode`);
`sendFile`/`sendImage` stand for `WechatWorkWebhook.file`/`.image`, whose
internals (read/upload) are exercised separately via `upload_media`. -/

/-- Effect environment of the dispatch paths. -/
structure WecomEnv where
  /-- Outcome of one `httpx.post` (send or upload) with the given payload. -/
  respond : SendReq → Except PyExc WeComResp
  /-- Outcome of `WechatWorkWebhook.image(path)` on `webhook_url`:
  file read, base64/md5, then send. -/
  sendImage : String → String → Except PyExc WeComResp
  /-- Outcome of `WechatWorkWebhook.file(path)` on `webhook_url`:
  upload for a `media_id`, then send. -/
  sendFile : String → String → Except PyExc WeComResp
  /-- Failure injected by the database layer (engine/session/query), caught
  only by the outermost `except Exception` of each entry point. -/
  dbFail : Option PyExc

/-- SQLAlchemy `scalar_one_or_none()` over the rows matching the filter:
none, the single row, or `MultipleResultsFound` (an `Exception`). -/
def scalar_one_or_none (rows : List WecomTask) : Except PyExc (Option WecomTask) :=
  match rows with
  | [] => .ok none
  | [t] => .ok (some t)
  | _ => .error (.exc "Multiple rows were found when one or none was required")

/-- The per-row commit `task.next_run_time = v; session.commit()`:
only that attribute of that row changes. -/
def commitNextRun (db : List WecomTask) (id : Nat) (nrt : Nat) : List WecomTask :=
  db.map fun r => if r.id == id then { r with next_run_time := some nrt } else r

/-- Result shorthand for a failed step. -/
def execFail (msg : String) : ExecResult := { success := false, message := msg, data := none }

/-- The type-dispatch of `execute_wecom_task` (service/tasks.py lines
127-158): returns either an early `return` dict (the `Sum.inl` cases, from
the file-path guards and the caught send exceptions) or the webhook
response to be checked for `errcode` (`Sum.inr`);
an uncaught exception propagates to the outer handler. -/
def executeSendStep (env : WecomEnv) (task : WecomTask) :
    Except PyExc (ExecResult ⊕ WeComResp) :=
  if task.message_type == "text" then
    (env.respond (.text task.webhook_url task.message_content)).map .inr
  else if task.message_type == "markdown" then
    (env.respond (.markdown task.webhook_url task.message_content)).map .inr
  else if task.message_type == "image" then
    if pyFalsyOptStr task.file_path then
      .ok (.inl (execFail "Image message type requires a file_path."))
    else
      match env.sendImage task.webhook_url (task.file_path.getD "") with
      | .ok r => .ok (.inr r)
      | .error (.fileNotFound _) =>
        .ok (.inl (execFail ("Image file not found: " ++ task.file_path.getD "")))
      | .error e =>
        .ok (.inl (execFail ("Failed to send image: " ++ excMsg e)))
  else if task.message_type == "file" then
    if pyFalsyOptStr task.file_path then
      .ok (.inl (execFail "File message type requires a file_path."))
    else
      match env.sendFile task.webhook_url (task.file_path.getD "") with
      | .ok r => .ok (.inr r)
      | .error (.fileNotFound _) =>
        .ok (.inl (execFail ("File not found: " ++ task.file_path.getD "")))
      | .error e =>
        .ok (.inl (execFail ("Failed to send file: " ++ excMsg e)))
  else
    (env.respond (.text task.webhook_url task.message_content)).map .inr

/-- Body of `execute_wecom_task` (service/tasks.py lines 98-183) inside the
outer `try`: the lookup, status check, type dispatch, and the `errcode`
check; `next_run_time` is recomputed and committed ONLY in the
`errcode == 0` branch (lines 160-175). -/
def executeBody (env : WecomEnv) (now : Nat) (db : List WecomTask) (task_id : Nat) :
    Except PyExc (ExecResult × List WecomTask) := do
  match env.dbFail with
  | some e => .error e
  | none =>
    match ← scalar_one_or_none (db.filter fun t => t.id == task_id) with
    | none =>
      .ok (execFail ("未找到ID为 " ++ toString task_id ++ " 的任务"), db)
    | some task =>
      if task.status != 1 then
        .ok (execFail ("任务状态为 " ++ toString task.status ++ "，跳过执行"), db)
      else
        match ← executeSendStep env task with
        | .inl earlyReturn => .ok (earlyReturn, db)
        | .inr result =>
          if result.errcode == some 0 then
            match calculate_next_run_time task.cron_expression now with
            | some nrt =>
              .ok ({ success := true, message := "企业微信消息发送成功",
                     data := some result }, commitNextRun db task.id nrt)
            | none =>
              .ok ({ success := true, message := "企业微信消息发送成功",
                     data := some result }, db)
          else
            .ok ({ success := false,
                   message := "企业微信消息发送失败: " ++ result.errmsg.getD "未知错误",
                   data := some result }, db)

/-- `execute_wecom_task` (service/tasks.py lines 88-186): the body under
`except Exception`, which turns any uncaught exception into a failure dict
and leaves the database untouched (the session is discarded uncommitted). -/
def execute_wecom_task (env : WecomEnv) (now : Nat) (db : List WecomTask)
    (task_id : Nat) : ExecResult × List WecomTask :=
  match executeBody env now db task_id with
  | .ok r => r
  | .error e => (execFail ("执行任务失败: " ++ excMsg e), db)

/-- The due predicate shared by `check_due_tasks` (service/tasks.py lines
40-45) and `CRUDWecomTask.get_due_tasks` (crud_wecom_task.py lines
135-140): `status == 1 AND next_run_time <= now`; a SQL `NULL`
`next_run_time` compares false. -/
def isDue (now : Nat) (t : WecomTask) : Bool :=
  t.status == 1 &&
  (match t.next_run_time with
   | some n => decide (n ≤ now)
   | none => false)

/-- The message-type dispatch of the due-task loop (service/tasks.py lines
55-62; identical branch structure in tasks.py lines 114-120): `text` and
`markdown` send their payload, every other kind falls back to a text send
of `message_content` (logged as a warning in the source). -/
def buildDueReq (t : WecomTask) : SendReq :=
  if t.message_type == "text" then .text t.webhook_url t.message_content
  else if t.message_type == "markdown" then .markdown t.webhook_url t.message_content
  else .text t.webhook_url t.message_content

/-- The summary dict returned by the poll-cycle entry points. -/
structure CheckResult where
  success : Bool
  message : String
deriving DecidableEq, Repr

/-- The `for task in due_tasks` loop of `check_due_tasks`
(service/tasks.py lines 50-80).  Each iteration posts its request (logged
in dispatch order), and — regardless of the `errcode` — recomputes and, if
a value came back, commits `next_run_time`; the per-iteration
`except Exception` swallows any failure and the loop continues. -/
def dueLoop (env : WecomEnv) (now : Nat) :
    List WecomTask → List WecomTask → List SendReq → List WecomTask × List SendReq
  | [], db, log => (db, log)
  | t :: rest, db, log =>
    let log2 := log ++ [buildDueReq t]
    match env.respond (buildDueReq t) with
    | .error _ => dueLoop env now rest db log2
    | .ok _ =>
      match calculate_next_run_time t.cron_expression now with
      | some nrt => dueLoop env now rest (commitNextRun db t.id nrt) log2
      | none => dueLoop env now rest db log2

/-- `check_due_tasks` (service/tasks.py lines 14-85): select the due rows,
run the loop, and return the aggregate summary; the outer
`except Exception` (fed here by `env.dbFail`, the database layer being the
only thing the loop does not already catch) yields the failure summary
instead of propagating.  Extra results: the final table and the dispatch
log. -/
def check_due_tasks (env : WecomEnv) (now : Nat) (db : List WecomTask) :
    CheckResult × List WecomTask × List SendReq :=
  match env.dbFail with
  | some e =>
    ({ success := false, message := "检查到期企业微信任务失败: " ++ excMsg e }, db, [])
  | none =>
    let due := db.filter (isDue now)
    let (db2, log) := dueLoop env now due db []
    ({ success := true,
       message := "检查到期企业微信任务完成，执行了 " ++ toString due.length ++ " 个任务" },
     db2, log)

/-- `execute_task` (tasks.py lines 92-139): look the task up
(`select_model_by_column`, first match), dispatch through the same
text/markdown/fallback shape, and report the `errcode` outcome; its own
`except Exception` turns the not-found `ValueError` and any transport
error into a failure dict.  The second component logs the requests
actually posted. -/
def execute_task (env : WecomEnv) (db : List WecomTask) (task_id : Nat) :
    ExecResult × List SendReq :=
  match db.find? (fun t => t.id == task_id) with
  | none =>
    (execFail ("执行任务失败: 未找到ID为 " ++ toString task_id ++ " 的任务"), [])
  | some task =>
    match env.respond (buildDueReq task) with
    | .error e => (execFail ("执行任务失败: " ++ excMsg e), [buildDueReq task])
    | .ok result =>
      if result.errcode == some 0 then
        ({ success := true, message := "发送成功", data := some result },
         [buildDueReq task])
      else
        ({ success := false, message := "发送失败: " ++ result.errmsg.getD "未知错误",
           data := some result }, [buildDueReq task])

/-- The `for task in due_tasks` loop of `_check_due_tasks` (tasks.py lines
50-62): run `execute_task` (which cannot raise), recompute the next fire
instant and persist it through `update_next_run_time`; the per-iteration
`except Exception` isolates failures.  `attempts` records the id of every
record whose iteration ran. -/
def asyncDueLoop (env : WecomEnv) (now : Nat) :
    List WecomTask → List WecomTask → List Nat → List SendReq →
    List WecomTask × List Nat × List SendReq
  | [], db, attempts, log => (db, attempts, log)
  | t :: rest, db, attempts, log =>
    let (_res, reqs) := execute_task env db t.id
    match calculate_next_run_time t.cron_expression now with
    | some nrt =>
      let (db2, _updated) := update_next_run_time db t.id nrt
      asyncDueLoop env now rest db2 (attempts ++ [t.id]) (log ++ reqs)
    | none =>
      asyncDueLoop env now rest db (attempts ++ [t.id]) (log ++ reqs)

/-- The async poll cycle `_check_due_tasks` (tasks.py lines 35-67): due
selection via `get_due_tasks`, the loop above, and a summary in every case
(its two nested `except Exception` handlers return the failure dict). -/
def _check_due_tasks (env : WecomEnv) (now : Nat) (db : List WecomTask) :
    CheckResult × List WecomTask × List Nat × List SendReq :=
  match env.dbFail with
  | some e =>
    ({ success := false, message := "检查到期企业微信任务失败: " ++ excMsg e }, db, [], [])
  | none =>
    let due := db.filter (isDue now)
    let (db2, attempts, log) := asyncDueLoop env now due db [] []
    ({ success := true, message := "检查到期企业微信任务完成" }, db2, attempts, log)

/-! ## wecom_webhook.py: the upload URL -/

/-- The upload-endpoint derivation inside `WechatWorkWebhook.upload_media`
(wecom_webhook.py line 71):

    upload_url = self.webhook_url.replace('send', 'upload_media') + '&type=file'

a global substring replacement followed by a literal suffix. -/
def upload_media_url (webhook_url : String) : String :=
  pyReplace webhook_url "send" "upload_media" ++ "&type=file"

/-- Split a character list at the FIRST occurrence of `sep`. -/
def splitFirstAt (sep : Char) : List Char → List Char × Option (List Char)
  | [] => ([], none)
  | c :: cs =>
    if c == sep then ([], some cs)
    else
      let (a, b) := splitFirstAt sep cs
      (c :: a, b)

/-- Split a character list on every occurrence of `sep` (single character),
keeping empty segments. -/
def splitOnCharL (sep : Char) : List Char → List (List Char)
  | [] => [[]]
  | c :: cs =>
    let r := splitOnCharL sep cs
    if c == sep then [] :: r
    else
      match r with
      | h :: t => (c :: h) :: t
      | [] => [[c]]

/-- The upload URL as the specification describes it (spec §6): take the
send URL, replace only the TERMINAL PATH SEGMENT by the upload segment,
and add a `type=file` query parameter; nothing else changes.  Stated as a
second definition purely for comparison with `upload_media_url`. -/
def specUploadUrl (u : String) : String :=
  let (path, query) := splitFirstAt '?' u.data
  let segs := splitOnCharL '/' path
  let newPath := List.intercalate ['/'] (segs.dropLast ++ ["upload_media".data])
  match query with
  | some q => String.mk newPath ++ "?" ++ String.mk q ++ "&type=file"
  | none => String.mk newPath ++ "?type=file"

/-! ## wecom_task_service.py and the creation API route -/

/-- The dict returned by task creation. -/
structure CreateResp where
  id : Nat
  name : String
  message : String
deriving DecidableEq, Repr

/-- The pydantic creation schema `WecomTaskCreate`
(schema_wecom_task.py lines 9-19): `name`, `webhook_url`, `message_type`,
`message_content`, `schedule_time` — and NO `file_path` field. -/
structure WecomTaskCreate where
  name : String
  webhook_url : String
  message_type : String
  message_content : String
  schedule_time : String
deriving DecidableEq, Repr

/-- `WecomTaskService.create_task` (wecom_task_service.py lines 15-62):
translate the schedule, compute the first fire instant, persist the row
(`CRUDWecomTask.create_task`, which defaults `file_path` to `None` — the
service passes none and performs no message-type validation), register the
Celery trigger (which swallows its own failures and does not influence the
result), and return the success dict; the enclosing `except Exception`
re-raises any failure — including a `parse_schedule_time` exception — as
`ServerError` after a rollback. -/
def WecomTaskService.create_task
    (name webhook_url message_type message_content schedule_time : String)
    (now nextId : Nat) (db : List WecomTask) :
    Except PyExc (CreateResp × List WecomTask) :=
  match parse_schedule_time schedule_time with
  | .error e => .error (.serverError ("创建任务失败: " ++ excMsg e))
  | .ok cron =>
    let nrt := calculate_next_run_time cron now
    let task : WecomTask :=
      { id := nextId, name := name, webhook_url := webhook_url,
        message_content := message_content, cron_expression := cron,
        message_type := message_type, file_path := none,
        next_run_time := nrt, status := 1 }
    .ok ({ id := nextId, name := name, message := "任务创建成功" }, db ++ [task])

/-- The API route `create_wecom_task` (api/v1/wecom.py lines 26-63).  For
`image`/`file` requests the guard `if not task.file_path` (line 42)
evaluates `task.file_path` — an `AttributeError`, since `WecomTaskCreate`
defines no such field; for every other request the service-call argument
`file_path=task.file_path` (line 61) evaluates the same missing attribute.
So no request ever reaches the service, no row is ever persisted by this
route, and the documented 422 validation error is reachable only for an
empty `message_content` on `text`/`markdown` (line 48). -/
def create_wecom_task (req : WecomTaskCreate) :
    Except PyExc (CreateResp × List WecomTask) :=
  if req.message_type == "image" || req.message_type == "file" then
    .error (.attributeError "WecomTaskCreate object has no attribute file_path")
  else if req.message_type == "text" || req.message_type == "markdown" then
    if req.message_content == "" then
      .error (.httpException 422
        "Message content is required for text/markdown message types.")
    else
      .error (.attributeError "WecomTaskCreate object has no attribute file_path")
  else
    .error (.attributeError "WecomTaskCreate object has no attribute file_path")

/-! ## Helper lemmas -/

/-- A substring match for a pattern headed by `c` needs `c` somewhere in the
scanned list. -/
lemma listHas_mem_of_true (c : Char) (cs l : List Char) (h : listHas (c :: cs) l = true) :
    c ∈ l := by
  induction l with
  | nil => simp [listHas, leadMatch] at h
  | cons b bs ih =>
    rw [listHas, Bool.or_eq_true] at h
    rcases h with h | h
    · rw [leadMatch, Bool.and_eq_true, beq_iff_eq] at h
      exact h.1 ▸ List.mem_cons_self b bs
    · exact List.mem_cons_of_mem b (ih h)

/-- Contrapositive of `listHas_mem_of_true`. -/
lemma listHas_false_of_not_mem (c : Char) (cs l : List Char) (h : c ∉ l) :
    listHas (c :: cs) l = false := by
  cases e : listHas (c :: cs) l
  · rfl
  · exact absurd (listHas_mem_of_true c cs l e) h

/-- Every natural-language keyword starts with `每`, so an input without
that character reaches the fallback expression. -/
lemma nlBranches_no_kw (t : String) (hk : '每' ∉ t.data) :
    nlBranches t = .ok "0 0 0 * * ?" := by
  have h1 : pyIn "每天" t = false := listHas_false_of_not_mem _ _ _ hk
  have h2 : pyIn "每周" t = false := listHas_false_of_not_mem _ _ _ hk
  have h3 : pyIn "每星期" t = false := listHas_false_of_not_mem _ _ _ hk
  have h4 : pyIn "每月" t = false := listHas_false_of_not_mem _ _ _ hk
  simp [nlBranches, dailyBranch, weekBranch, monthBranch, h1, h2, h3, h4]

/-- A 5-field expression with a literal `0` day-of-month or month field
never passes croniter validation: those fields are out of range, so the
constructor raises `CroniterBadCronError` before the repair code can run. -/
lemma croniterParse_error_of_zero (s mi h dm mo dw : String)
    (hsplit : pySplitWs s = [mi, h, dm, mo, dw]) (hz : dm = "0" ∨ mo = "0") :
    ∃ m, croniterParse s = .error m := by
  unfold croniterParse
  rw [hsplit]
  cases e0 : cronField 0 mi with
  | error m => exact ⟨m, by simp [e0, Bind.bind, Except.bind]⟩
  | ok v0 =>
    cases e1 : cronField 1 h with
    | error m => exact ⟨m, by simp [e0, e1, Bind.bind, Except.bind]⟩
    | ok v1 =>
      rcases hz with hz | hz
      · subst hz
        have e2 : cronField 2 "0" = .error "[0] is not acceptable, out of range" := rfl
        exact ⟨"[0] is not acceptable, out of range",
          by simp [e0, e1, e2, Bind.bind, Except.bind]⟩
      · subst hz
        cases e2 : cronField 2 dm with
        | error m => exact ⟨m, by simp [e0, e1, e2, Bind.bind, Except.bind]⟩
        | ok v2 =>
          have e3 : cronField 3 "0" = .error "[0] is not acceptable, out of range" := rfl
          exact ⟨"[0] is not acceptable, out of range",
            by simp [e0, e1, e2, e3, Bind.bind, Except.bind]⟩

/-- Tuple unpacking can only raise its two `ValueError`s. -/
lemma unpack2_error (l : List String) (e : PyExc) (h : unpack2 l = .error e) :
    e = .valueError tooManyMsg ∨ e = .valueError notEnoughMsg := by
  rcases l with _ | ⟨a, _ | ⟨b, _ | ⟨c, rest⟩⟩⟩
  · simp [unpack2] at h
    exact .inr h.symm
  · simp [unpack2] at h
    exact .inr h.symm
  · simp [unpack2] at h
  · simp [unpack2] at h
    exact .inl h.symm

/-- The colon handling can only raise the unpacking `ValueError`s. -/
lemma parseHM_error (a b : String) (e : PyExc) (h : parseHM a b = .error e) :
    e = .valueError tooManyMsg ∨ e = .valueError notEnoughMsg := by
  unfold parseHM at h
  split at h
  · exact unpack2_error _ _ h
  · split at h
    · exact unpack2_error _ _ h
    · simp at h

/-- The shared hour/minute block raises only through the colon handling. -/
lemma dianTimeCase_error (t : String) (mk : Int → Int → String) (e : PyExc)
    (h : dianTimeCase t mk = .error e) :
    e = .valueError tooManyMsg ∨ e = .valueError notEnoughMsg := by
  unfold dianTimeCase at h
  split at h
  · dsimp only at h
    split at h
    · rename_i heq
      injection h with h2
      exact h2 ▸ parseHM_error _ _ _ heq
    · split at h <;> simp_all
  · simp at h

/-- The daily branch raises only through the colon handling. -/
lemma dailyBranch_error (s : String) (e : PyExc) (h : dailyBranch s = .error e) :
    e = .valueError tooManyMsg ∨ e = .valueError notEnoughMsg := by
  unfold dailyBranch at h
  split at h
  · exact dianTimeCase_error _ _ _ h
  · simp at h

/-- The weekly loop raises only through the colon handling. -/
lemma weekLoop_error (s : String) (l : List (String × String)) (e : PyExc)
    (h : weekLoop s l = .error e) :
    e = .valueError tooManyMsg ∨ e = .valueError notEnoughMsg := by
  induction l with
  | nil => simp [weekLoop] at h
  | cons p rest ih =>
    rw [weekLoop] at h
    split at h
    · split at h
      · rename_i heq
        injection h with h2
        exact h2 ▸ dianTimeCase_error _ _ _ heq
      · simp at h
      · exact ih h
    · exact ih h

/-- The weekly branch raises only through the colon handling. -/
lemma weekBranch_error (s : String) (e : PyExc) (h : weekBranch s = .error e) :
    e = .valueError tooManyMsg ∨ e = .valueError notEnoughMsg := by
  unfold weekBranch at h
  split at h
  · exact weekLoop_error _ _ _ h
  · simp at h

/-- The monthly branch raises only through the colon handling. -/
lemma monthBranch_error (s : String) (e : PyExc) (h : monthBranch s = .error e) :
    e = .valueError tooManyMsg ∨ e = .valueError notEnoughMsg := by
  unfold monthBranch at h
  split at h
  · dsimp only at h
    split at h
    · split at h
      · rename_i heq
        split at heq
        · injection h with h2
          exact h2 ▸ parseHM_error _ _ _ heq
        · simp at heq
      · split at h <;> simp_all
    · simp at h
  · simp at h

/-- The natural-language stage raises only through the colon handling. -/
lemma nlBranches_error (s : String) (e : PyExc) (h : nlBranches s = .error e) :
    e = .valueError tooManyMsg ∨ e = .valueError notEnoughMsg := by
  unfold nlBranches at h
  cases hd : dailyBranch s with
  | error e1 =>
    rw [hd] at h
    injection h with h2
    exact h2 ▸ dailyBranch_error _ _ hd
  | ok o =>
    rw [hd] at h
    cases o with
    | some r => simp at h
    | none =>
      cases hw : weekBranch s with
      | error e1 =>
        rw [hw] at h
        injection h with h2
        exact h2 ▸ weekBranch_error _ _ hw
      | ok o2 =>
        rw [hw] at h
        cases o2 with
        | some r => simp at h
        | none =>
          cases hm : monthBranch s with
          | error e1 =>
            rw [hm] at h
            injection h with h2
            exact h2 ▸ monthBranch_error _ _ hm
          | ok o3 =>
            rw [hm] at h
            cases o3 <;> simp at h

/-- Every exception escaping `parse_schedule_time` is one of the two
tuple-unpacking `ValueError`s: the cron stage catches its own
`ValueError`s, and `int()` failures are swallowed by the inner handlers. -/
lemma parse_schedule_time_error_shape (s : String) (e : PyExc)
    (h : parse_schedule_time s = .error e) :
    e = .valueError tooManyMsg ∨ e = .valueError notEnoughMsg := by
  unfold parse_schedule_time at h
  dsimp only at h
  split at h
  · split at h
    · split at h <;> simp at h
    · exact nlBranches_error _ _ h
  · exact nlBranches_error _ _ h

/-! ## Claim C2 -/

/-- C2 counterexample: `parse_schedule_time` does NOT terminate without
raising on every input — the phrase `每天1:2:3点` reaches the colon
unpacking `hour, minute = hour.split(":")` (which lies outside the `try`)
with a three-element list, so an uncaught `ValueError` escapes. -/
theorem parse_schedule_time_raises_cex :
    parse_schedule_time "每天1:2:3点" = Except.error (PyExc.valueError tooManyMsg) := rfl

/-- C2 (amended): an exception can escape `parse_schedule_time`, but only a
tuple-unpacking `ValueError` from a recognized phrase whose time segment
holds two or more colons; and every input that neither tokenizes into 5 or
6 fields nor contains the keyword character `每` returns exactly the
fallback expression `0 0 0 * * ?`. -/
theorem parse_schedule_time_exceptions (s : String) :
    (∀ e, parse_schedule_time s = .error e →
       e = .valueError tooManyMsg ∨ e = .valueError notEnoughMsg) ∧
    ((pySplitWs s).length ≠ 5 → (pySplitWs s).length ≠ 6 →
       '每' ∉ (pyLower s).data → parse_schedule_time s = .ok "0 0 0 * * ?") := by
  constructor
  · exact fun e h => parse_schedule_time_error_shape s e h
  · intro h5 h6 hk
    unfold parse_schedule_time
    dsimp only
    rw [if_neg]
    · exact nlBranches_no_kw _ hk
    · simp [h5, h6]

/-- C2 witness: both parts of `parse_schedule_time_exceptions` applied at
concrete inputs. -/
theorem parse_schedule_time_exceptions_witness :
    (PyExc.valueError tooManyMsg = PyExc.valueError tooManyMsg ∨
     PyExc.valueError tooManyMsg = PyExc.valueError notEnoughMsg) ∧
    parse_schedule_time "hello" = Except.ok "0 0 0 * * ?" :=
  ⟨(parse_schedule_time_exceptions "每天1:2:3点").1 _ rfl,
   (parse_schedule_time_exceptions "hello").2 (by decide) (by decide) (by decide)⟩

/-! ## Claim C3 -/

/-- C3 counterexample: a 5-field cron string with a literal `0` day-of-month
is NOT returned with the field coerced to `1` — croniter validation rejects
it first (`0` is out of the 1-31 range), the `ValueError` is caught, and
the translator falls through to the natural-language fallback. -/
theorem parse_zero_dom_cex :
    parse_schedule_time "0 0 0 * *" = Except.ok "0 0 0 * * ?" ∧
    ("0 0 0 * * ?" : String) ≠ "0 0 1 * *" :=
  ⟨rfl, by decide⟩

/-- C3 (amended): the `0 → 1` repair of the day-of-month and month fields
is unreachable for literal `0` fields, because croniter validation rejects
such strings before the repair runs; a 5-field string with a literal `0`
day-of-month or month field (and no natural-language keyword) therefore
yields the fallback expression instead of the repaired string. -/
theorem parse_zero_field_cron_falls_back (s mi h dm mo dw : String)
    (hsplit : pySplitWs s = [mi, h, dm, mo, dw])
    (hz : dm = "0" ∨ mo = "0")
    (hk : '每' ∉ (pyLower s).data) :
    parse_schedule_time s = .ok "0 0 0 * * ?" := by
  obtain ⟨m, hm⟩ := croniterParse_error_of_zero s mi h dm mo dw hsplit hz
  unfold parse_schedule_time
  rw [hsplit]
  simp only [List.length_cons, List.length_nil]
  norm_num
  rw [hm]
  exact nlBranches_no_kw _ hk

/-- C3 witness: `parse_zero_field_cron_falls_back` applied at a concrete
zero-day cron string. -/
theorem parse_zero_field_cron_falls_back_witness :
    parse_schedule_time "5 4 0 12 3" = .ok "0 0 0 * * ?" :=
  parse_zero_field_cron_falls_back "5 4 0 12 3" "5" "4" "0" "12" "3" rfl
    (Or.inl rfl) (by decide)

/-! ## Claim C5 -/

/-- C5 counterexample: the documented phrase `每周一8:30` does NOT translate
to `0 30 8 ? * 1` — the weekly branch requires the literal `点` marker in
the time segment, and `8:30` has none, so the phrase falls through to the
fallback expression. -/
theorem weekly_phrase_cex :
    parse_schedule_time "每周一8:30" = Except.ok "0 0 0 * * ?" ∧
    ("0 0 0 * * ?" : String) ≠ "0 30 8 ? * 1" :=
  ⟨rfl, by decide⟩

/-- C5 (amended): the daily and monthly canonical translations hold as
documented (`每天9点` and `每月1号0点`), but the weekly phrase is recognized
only when its time segment carries the `点` marker: `每周一8:30` yields the
fallback, while `每周一8:30点` yields `0 30 8 ? * 1`; the `7 → Sunday = 0`
weekday folding holds (`每周78点`). -/
theorem natural_phrase_translations :
    parse_schedule_time "每天9点" = Except.ok "0 0 9 * * ?" ∧
    parse_schedule_time "每月1号0点" = Except.ok "0 0 0 1 * ?" ∧
    parse_schedule_time "每周一8:30" = Except.ok "0 0 0 * * ?" ∧
    parse_schedule_time "每周一8:30点" = Except.ok "0 30 8 ? * 1" ∧
    parse_schedule_time "每周78点" = Except.ok "0 0 8 ? * 0" :=
  ⟨rfl, rfl, rfl, rfl, rfl⟩

/-! ## Claim C8 -/

/-- C8: a creation request with `messageKind = image` and no `filePath`
does NOT fail with the documented validation error.  The route aborts with
an `AttributeError` (the creation schema has no `file_path` field, yet the
route reads `task.file_path`), i.e. a server error rather than the
documented 422; and the service-level `create_task` — which performs no
message-type validation and accepts no `file_path` at all — happily
persists the record with a null `file_path`. -/
theorem create_image_without_path :
    create_wecom_task
      { name := "n", webhook_url := "https://h/send?key=k", message_type := "image",
        message_content := "c", schedule_time := "* * * * *" }
      = .error (.attributeError "WecomTaskCreate object has no attribute file_path") ∧
    WecomTaskService.create_task "n" "https://h/send?key=k" "image" "c" "* * * * *" 0 1 []
      = .ok ({ id := 1, name := "n", message := "任务创建成功" },
             [{ id := 1, name := "n", webhook_url := "https://h/send?key=k",
                message_content := "c", cron_expression := "* * * * *",
                message_type := "image", file_path := none,
                next_run_time := some 60, status := 1 }]) :=
  ⟨rfl, rfl⟩

/-! ## Claim C1 -/

/-- C1 counterexample: a `file` task whose final send returns a non-zero
`errcode` reports the failure with the destination message, but
`execute_wecom_task` does NOT recompute or persist `nextRunAt` — the table
is returned unchanged (`next_run_time` still `some 0`) even though a fresh
value (60) was computable from the schedule. -/
theorem execute_file_errcode_cex :
    execute_wecom_task
      { respond := fun _ => .ok ⟨some 0, some "ok"⟩,
        sendImage := fun _ _ => .ok ⟨some 0, some "ok"⟩,
        sendFile := fun _ _ => .ok ⟨some 93000, some "invalid webhook url"⟩,
        dbFail := none }
      0 [⟨1, "t", "https://h/send?key=k", "", "* * * * *", "file", some "/a.pdf", some 0, 1⟩] 1
    = ({ success := false, message := "企业微信消息发送失败: invalid webhook url",
         data := some ⟨some 93000, some "invalid webhook url"⟩ },
       [⟨1, "t", "https://h/send?key=k", "", "* * * * *", "file", some "/a.pdf", some 0, 1⟩])
    ∧ calculate_next_run_time "* * * * *" 0 = some 60 :=
  ⟨rfl, rfl⟩

theorem execute_file_errcode_amended (env : WecomEnv) (now : Nat) (db : List WecomTask)
    (task_id : Nat) (task : WecomTask) (resp : WeComResp) (fp : String)
    (hdb : env.dbFail = none)
    (hfind : db.filter (fun t => t.id == task_id) = [task])
    (hstatus : task.status = 1)
    (htype : task.message_type = "file")
    (hfp : task.file_path = some fp) (hfp2 : fp ≠ "")
    (hsend : env.sendFile task.webhook_url fp = .ok resp)
    (hcode : resp.errcode ≠ some 0) :
    execute_wecom_task env now db task_id
      = ({ success := false,
           message := "企业微信消息发送失败: " ++ resp.errmsg.getD "未知错误",
           data := some resp }, db) := by
  have hstep : executeSendStep env task = .ok (.inr resp) := by
    unfold executeSendStep
    rw [htype, hfp]
    have hfalsy : pyFalsyOptStr (some fp) = false := by
      simp [pyFalsyOptStr, hfp2]
    simp only [hfalsy]
    norm_num
    simp [Option.getD, hsend]
  unfold execute_wecom_task executeBody
  rw [hdb, hfind]
  simp only [scalar_one_or_none, Bind.bind, Except.bind, hstatus]
  rw [if_neg (by decide), hstep]
  have hcode2 : (resp.errcode == some 0) = false := by
    simp [hcode]
  simp [hcode2]

/-- C1 witness: `execute_file_errcode_amended` applied at a concrete task,
environment and response. -/
theorem execute_file_errcode_amended_witness :
    execute_wecom_task
      { respond := fun _ => .ok ⟨some 0, none⟩,
        sendImage := fun _ _ => .ok ⟨some 0, none⟩,
        sendFile := fun _ _ => .ok ⟨some 45009, some "api freq out of limit"⟩,
        dbFail := none }
      7 [⟨2, "w", "https://w/send?key=q", "", "0 5 * * *", "file", some "/b.txt", some 100, 1⟩] 2
    = ({ success := false, message := "企业微信消息发送失败: api freq out of limit",
         data := some ⟨some 45009, some "api freq out of limit"⟩ },
       [⟨2, "w", "https://w/send?key=q", "", "0 5 * * *", "file", some "/b.txt", some 100, 1⟩]) :=
  execute_file_errcode_amended _ 7 _ 2
    ⟨2, "w", "https://w/send?key=q", "", "0 5 * * *", "file", some "/b.txt", some 100, 1⟩
    ⟨some 45009, some "api freq out of limit"⟩ "/b.txt"
    rfl rfl rfl rfl rfl (by decide) rfl (by decide)

/-- Soundness of the bounded search: a found instant is at or after the
start and matches the expression. -/
lemma searchSec_some (spec : CronSpec) :
    ∀ fuel u r, searchSec spec u fuel = some r → u ≤ r ∧ cronMatch spec r = true := by
  intro fuel
  induction fuel with
  | zero => intro u r h; simp [searchSec] at h
  | succ n ih =>
    intro u r h
    rw [searchSec] at h
    split at h
    · rename_i hc
      injection h with h2
      exact ⟨le_of_eq h2, h2 ▸ hc⟩
    · have h3 := ih (u + 1) r h
      exact ⟨by omega, h3.2⟩

/-- `str.replace` is the identity when the pattern does not occur. -/
lemma replGo_id_of_not_has (pat rep : List Char) :
    ∀ fuel l, listHas pat l = false → replGo pat rep fuel l = l := by
  intro fuel
  induction fuel with
  | zero => intro l _; cases l <;> rfl
  | succ n ih =>
    intro l hl
    cases l with
    | nil => rfl
    | cons c cs =>
      rw [listHas, Bool.or_eq_false_iff] at hl
      rw [replGo, if_neg (by simp [hl.1])]
      rw [ih cs hl.2]

/-- Replacing `?` by `*` leaves no `?` in the result. -/
lemma replGo_q_no_q : ∀ fuel l, l.length ≤ fuel → '?' ∉ replGo ['?'] ['*'] fuel l := by
  intro fuel
  induction fuel with
  | zero =>
    intro l hl
    rw [Nat.le_zero, List.length_eq_zero] at hl
    subst hl
    simp [replGo]
  | succ n ih =>
    intro l hl
    cases l with
    | nil => simp [replGo]
    | cons c cs =>
      rw [replGo]
      by_cases hc : c = '?'
      · rw [if_pos (by simp [leadMatch, hc])]
        intro hmem
        rcases List.mem_append.mp hmem with hmem | hmem
        · simp at hmem
        · simp only [List.length_cons] at hl
          exact ih (cs.drop 0) (by simpa using Nat.le_of_succ_le_succ hl) hmem
      · rw [if_neg (by simp [leadMatch]; exact fun h2 => hc h2.symm)]
        intro hmem
        rcases List.mem_cons.mp hmem with hmem | hmem
        · exact hc hmem.symm
        · simp only [List.length_cons] at hl
          exact ih cs (Nat.le_of_succ_le_succ hl) hmem

/-- The `? → *` substitution is idempotent. -/
lemma pyReplace_q_idem (s : String) :
    pyReplace (pyReplace s "?" "*") "?" "*" = pyReplace s "?" "*" := by
  show pyReplace (String.mk (replGo ['?'] ['*'] s.data.length s.data)) "?" "*" = _
  unfold pyReplace
  have hno : listHas ['?'] (replGo ['?'] ['*'] s.data.length s.data) = false :=
    listHas_false_of_not_mem _ _ _ (replGo_q_no_q s.data.length s.data le_rfl)
  simp only []
  rw [replGo_id_of_not_has _ _ _ _ hno]

/-- C4: `calculate_next_run_time` first replaces every `?` by `*` (so the
computation only ever sees the substituted expression — substituting again
changes nothing), and whenever it returns a value, that value is an instant
strictly after the reference instant satisfying the substituted expression;
a `none` result (and never an exception — the function is total by the
blanket `except Exception`) is the only other outcome. -/
theorem calculate_next_run_time_spec (expr : String) (now : Nat) :
    calculate_next_run_time expr now
      = calculate_next_run_time (pyReplace expr "?" "*") now ∧
    (∀ r, calculate_next_run_time expr now = some r →
       now < r ∧ ∃ spec, croniterParse (pyReplace expr "?" "*") = .ok spec ∧
         cronMatch spec r = true) := by
  constructor
  · unfold calculate_next_run_time calcBody
    rw [pyReplace_q_idem]
  · intro r h
    unfold calculate_next_run_time calcBody at h
    cases hp : croniterParse (pyReplace expr "?" "*") with
    | error m => simp [hp, Bind.bind, Except.bind] at h
    | ok spec =>
      simp only [hp, Bind.bind, Except.bind] at h
      unfold croniterGetNext at h
      cases hs : searchSec spec (now + 1) croniterHorizon with
      | none => rw [hs] at h; simp at h
      | some v =>
        rw [hs] at h
        simp at h
        obtain ⟨h1, h2⟩ := searchSec_some spec _ _ _ hs
        subst h
        exact ⟨by omega, spec, rfl, h2⟩

/-- C4 witness: `calculate_next_run_time_spec` applied at `* * * * *`
from instant 0, which computes `some 60`. -/
theorem calculate_next_run_time_spec_witness :
    0 < 60 ∧ ∃ spec, croniterParse (pyReplace "* * * * *" "?" "*") = .ok spec ∧
      cronMatch spec 60 = true :=
  (calculate_next_run_time_spec "* * * * *" 0).2 60 rfl

/-- The sync loop logs one request per processed record, in order,
regardless of the per-record outcomes. -/
lemma dueLoop_log (env : WecomEnv) (now : Nat) :
    ∀ l db log, (dueLoop env now l db log).2 = log ++ l.map buildDueReq := by
  intro l
  induction l with
  | nil => intro db log; simp [dueLoop]
  | cons t rest ih =>
    intro db log
    rw [dueLoop]
    cases hr : env.respond (buildDueReq t) with
    | error e =>
      simp only [hr, ih]
      simp
    | ok resp =>
      simp only [hr]
      cases hn : calculate_next_run_time t.cron_expression now with
      | some nrt =>
        simp only [hn, ih]
        simp
      | none =>
        simp only [hn, ih]
        simp

/-- The async loop records one attempt per processed record, in order. -/
lemma asyncDueLoop_attempts (env : WecomEnv) (now : Nat) :
    ∀ l db att log,
      (asyncDueLoop env now l db att log).2.1 = att ++ l.map (fun t => t.id) := by
  intro l
  induction l with
  | nil => intro db att log; simp [asyncDueLoop]
  | cons t rest ih =>
    intro db att log
    rw [asyncDueLoop]
    rcases he : execute_task env db t.id with ⟨res, reqs⟩
    simp only [he]
    cases hn : calculate_next_run_time t.cron_expression now with
    | some nrt =>
      simp only [hn, ih]
      simp
    | none =>
      simp only [hn, ih]
      simp

/-- With a healthy database layer, the poll cycle posts exactly one request
per due record, in order, whatever the per-record outcomes. -/
lemma check_due_tasks_log (env : WecomEnv) (now : Nat) (db : List WecomTask)
    (hdb : env.dbFail = none) :
    (check_due_tasks env now db).2.2 = (db.filter (isDue now)).map buildDueReq := by
  unfold check_due_tasks
  rw [hdb]
  dsimp only
  have hlog := dueLoop_log env now (db.filter (isDue now)) db []
  rcases hdl : dueLoop env now (db.filter (isDue now)) db [] with ⟨db2, log⟩
  rw [hdl] at hlog
  simp at hlog
  simp [hdl, hlog]

/-- C6: both poll-cycle implementations attempt every due record — an
exception in one record's processing (`respond` errors are caught inside
the loop bodies) cannot stop the records after it: the sync cycle's
dispatch log is exactly one request per due record and the async cycle's
attempt list is exactly one entry per due record — and both always return
an aggregate summary: success when the store cooperates, a failure summary
(rather than a propagated exception) when the store itself fails. -/
theorem poll_cycle_isolation :
    (∀ env now db, env.dbFail = none →
       (check_due_tasks env now db).1.success = true ∧
       (check_due_tasks env now db).2.2 = (db.filter (isDue now)).map buildDueReq) ∧
    (∀ env now db e, env.dbFail = some e →
       (check_due_tasks env now db).1
         = { success := false, message := "检查到期企业微信任务失败: " ++ excMsg e }) ∧
    (∀ env now db, env.dbFail = none →
       (_check_due_tasks env now db).1.success = true ∧
       (_check_due_tasks env now db).2.2.1 = (db.filter (isDue now)).map (fun t => t.id)) ∧
    (∀ env now db e, env.dbFail = some e → (_check_due_tasks env now db).1.success = false) := by
  refine ⟨?_, ?_, ?_, ?_⟩
  · intro env now db hdb
    refine ⟨?_, check_due_tasks_log env now db hdb⟩
    unfold check_due_tasks
    rw [hdb]
  · intro env now db e hdb
    unfold check_due_tasks
    rw [hdb]
  · intro env now db hdb
    unfold _check_due_tasks
    rw [hdb]
    dsimp only
    have hatt := asyncDueLoop_attempts env now (db.filter (isDue now)) db [] []
    rcases hdl : asyncDueLoop env now (db.filter (isDue now)) db [] [] with ⟨db2, att, log⟩
    rw [hdl] at hatt
    simp at hatt
    simp [hdl, hatt]
  · intro env now db e hdb
    unfold _check_due_tasks
    rw [hdb]

/-- The defensive default branch of the dispatch shape. -/
lemma buildDueReq_default (t : WecomTask) (h1 : t.message_type ≠ "text")
    (h2 : t.message_type ≠ "markdown") :
    buildDueReq t = .text t.webhook_url t.message_content := by
  unfold buildDueReq
  rw [if_neg (by simp [h1]), if_neg (by simp [h2])]

/-- C10: a due record whose `message_type` is neither `text` nor `markdown`
— including the documented kinds `image` and `file` — is dispatched by the
due-task check path (and by the async `execute_task`) as a plain text send
of its `message_content`; no request other than a text or markdown send is
ever posted by that path. -/
theorem unknown_kind_sends_text :
    (∀ t : WecomTask, t.message_type ≠ "text" → t.message_type ≠ "markdown" →
       buildDueReq t = .text t.webhook_url t.message_content) ∧
    (∀ env now db t, env.dbFail = none → t ∈ db.filter (isDue now) →
       t.message_type ≠ "text" → t.message_type ≠ "markdown" →
       SendReq.text t.webhook_url t.message_content ∈ (check_due_tasks env now db).2.2) ∧
    (∀ env now db r, env.dbFail = none → r ∈ (check_due_tasks env now db).2.2 →
       (∃ u c, r = SendReq.text u c) ∨ (∃ u c, r = SendReq.markdown u c)) ∧
    (∀ env db tid t, db.find? (fun x => x.id == tid) = some t →
       t.message_type ≠ "text" → t.message_type ≠ "markdown" →
       (execute_task env db tid).2 = [SendReq.text t.webhook_url t.message_content]) := by
  refine ⟨buildDueReq_default, ?_, ?_, ?_⟩
  · intro env now db t hdb hmem h1 h2
    rw [check_due_tasks_log env now db hdb]
    rw [← buildDueReq_default t h1 h2]
    exact List.mem_map_of_mem buildDueReq hmem
  · intro env now db r hdb hmem
    rw [check_due_tasks_log env now db hdb] at hmem
    obtain ⟨t, _, ht⟩ := List.mem_map.mp hmem
    subst ht
    unfold buildDueReq
    split
    · exact .inl ⟨_, _, rfl⟩
    · split
      · exact .inr ⟨_, _, rfl⟩
      · exact .inl ⟨_, _, rfl⟩
  · intro env db tid t hfind h1 h2
    unfold execute_task
    rw [hfind]
    cases hr : env.respond (buildDueReq t) with
    | error e =>
      simp only [hr]
      rw [buildDueReq_default t h1 h2]
    | ok resp =>
      simp only [hr]
      split <;> rw [buildDueReq_default t h1 h2]

/-- C9: `update_next_run_time` writes only the `next_run_time` column of
the rows with the addressed id — every other field of those rows and every
other row survive verbatim, a missing id leaves the table untouched — and
the returned flag reports exactly whether such a row exists. -/
theorem update_next_run_time_spec (db : List WecomTask) (task_id nrt : Nat) :
    (update_next_run_time db task_id nrt).1.length = db.length ∧
    (∀ i (hi : i < db.length) (hi2 : i < (update_next_run_time db task_id nrt).1.length),
       (db[i].id ≠ task_id → (update_next_run_time db task_id nrt).1[i] = db[i]) ∧
       (db[i].id = task_id →
          (update_next_run_time db task_id nrt).1[i]
            = { db[i] with next_run_time := some nrt })) ∧
    ((∀ r ∈ db, r.id ≠ task_id) → (update_next_run_time db task_id nrt).1 = db) ∧
    ((update_next_run_time db task_id nrt).2 = true ↔ ∃ r ∈ db, r.id = task_id) := by
  refine ⟨?_, ?_, ?_, ?_⟩
  · simp [update_next_run_time, sqlUpdateWhere]
  · intro i hi hi2
    constructor
    · intro hne
      simp only [update_next_run_time, sqlUpdateWhere, List.getElem_map]
      rw [if_neg (by simp [hne])]
    · intro heq
      simp only [update_next_run_time, sqlUpdateWhere, List.getElem_map]
      rw [if_pos (by simp [heq])]
  · intro hall
    simp only [update_next_run_time, sqlUpdateWhere]
    have : ∀ r ∈ db, (if r.id == task_id then { r with next_run_time := some nrt } else r) = r := by
      intro r hr
      rw [if_neg (by simp [hall r hr])]
    calc db.map _ = db.map id := List.map_congr_left this
    _ = db := List.map_id db
  · simp only [update_next_run_time, sqlUpdateWhere, decide_eq_true_eq]
    rw [gt_iff_lt, List.length_pos_iff_exists_mem]
    constructor
    · rintro ⟨r, hr⟩
      rw [List.mem_filter] at hr
      exact ⟨r, hr.1, by simpa using hr.2⟩
    · rintro ⟨r, hr, hid⟩
      exact ⟨r, List.mem_filter.mpr ⟨hr, by simp [hid]⟩⟩

/-- C6 witness: `poll_cycle_isolation` applied at a concrete environment
whose second record draws a transport error, with the first and third
records still dispatched. -/
theorem poll_cycle_isolation_witness :
    (check_due_tasks
      { respond := fun r => match r with
          | .markdown _ _ => .error (.exc "boom")
          | _ => .ok ⟨some 0, none⟩,
        sendImage := fun _ _ => .ok ⟨some 0, none⟩,
        sendFile := fun _ _ => .ok ⟨some 0, none⟩,
        dbFail := none }
      100
      [⟨1, "a", "u1", "m1", "* * * * *", "text", none, some 10, 1⟩,
       ⟨2, "b", "u2", "m2", "* * * * *", "markdown", none, some 20, 1⟩,
       ⟨3, "c", "u3", "m3", "* * * * *", "file", none, some 30, 1⟩]).1.success = true ∧
    (check_due_tasks
      { respond := fun r => match r with
          | .markdown _ _ => .error (.exc "boom")
          | _ => .ok ⟨some 0, none⟩,
        sendImage := fun _ _ => .ok ⟨some 0, none⟩,
        sendFile := fun _ _ => .ok ⟨some 0, none⟩,
        dbFail := none }
      100
      [⟨1, "a", "u1", "m1", "* * * * *", "text", none, some 10, 1⟩,
       ⟨2, "b", "u2", "m2", "* * * * *", "markdown", none, some 20, 1⟩,
       ⟨3, "c", "u3", "m3", "* * * * *", "file", none, some 30, 1⟩]).2.2
      = [.text "u1" "m1", .markdown "u2" "m2", .text "u3" "m3"] := by
  have h := poll_cycle_isolation.1
    { respond := fun r => match r with
        | .markdown _ _ => .error (.exc "boom")
        | _ => .ok ⟨some 0, none⟩,
      sendImage := fun _ _ => .ok ⟨some 0, none⟩,
      sendFile := fun _ _ => .ok ⟨some 0, none⟩,
      dbFail := none }
    100
    [⟨1, "a", "u1", "m1", "* * * * *", "text", none, some 10, 1⟩,
     ⟨2, "b", "u2", "m2", "* * * * *", "markdown", none, some 20, 1⟩,
     ⟨3, "c", "u3", "m3", "* * * * *", "file", none, some 30, 1⟩] rfl
  exact ⟨h.1, h.2.trans rfl⟩

/-- C10 witness: `unknown_kind_sends_text` applied at a concrete `image`
record and at a concrete due-task table. -/
theorem unknown_kind_sends_text_witness :
    buildDueReq ⟨7, "p", "https://h/send?key=k", "cap", "* * * * *", "image",
        some "/p.png", some 3, 1⟩
      = .text "https://h/send?key=k" "cap" ∧
    SendReq.text "https://h/send?key=k" "cap" ∈
      (check_due_tasks
        { respond := fun _ => .ok ⟨some 0, none⟩,
          sendImage := fun _ _ => .ok ⟨some 0, none⟩,
          sendFile := fun _ _ => .ok ⟨some 0, none⟩, dbFail := none }
        9
        [⟨7, "p", "https://h/send?key=k", "cap", "* * * * *", "image",
          some "/p.png", some 3, 1⟩]).2.2 :=
  ⟨unknown_kind_sends_text.1 _ (by decide) (by decide),
   unknown_kind_sends_text.2.1
     { respond := fun _ => .ok ⟨some 0, none⟩,
       sendImage := fun _ _ => .ok ⟨some 0, none⟩,
       sendFile := fun _ _ => .ok ⟨some 0, none⟩, dbFail := none }
     9
     [⟨7, "p", "https://h/send?key=k", "cap", "* * * * *", "image",
       some "/p.png", some 3, 1⟩]
     ⟨7, "p", "https://h/send?key=k", "cap", "* * * * *", "image",
       some "/p.png", some 3, 1⟩
     rfl (by decide) (by decide) (by decide)⟩

/-- C9 witness: `update_next_run_time_spec` applied at a concrete
two-row table, for a present id and for an absent id. -/
theorem update_next_run_time_spec_witness :
    (update_next_run_time
      [⟨1, "a", "u1", "m1", "* * * * *", "text", none, some 10, 1⟩,
       ⟨2, "b", "u2", "m2", "* * * * *", "text", none, none, 1⟩] 1 50).1.length = 2 ∧
    ((update_next_run_time
      [⟨1, "a", "u1", "m1", "* * * * *", "text", none, some 10, 1⟩,
       ⟨2, "b", "u2", "m2", "* * * * *", "text", none, none, 1⟩] 1 50).2 = true ↔
      ∃ r ∈ [⟨1, "a", "u1", "m1", "* * * * *", "text", none, some 10, 1⟩,
             (⟨2, "b", "u2", "m2", "* * * * *", "text", none, none, 1⟩ : WecomTask)],
        r.id = 1) ∧
    (update_next_run_time
      [⟨1, "a", "u1", "m1", "* * * * *", "text", none, some 10, 1⟩,
       ⟨2, "b", "u2", "m2", "* * * * *", "text", none, none, 1⟩] 5 50).1
      = [⟨1, "a", "u1", "m1", "* * * * *", "text", none, some 10, 1⟩,
         ⟨2, "b", "u2", "m2", "* * * * *", "text", none, none, 1⟩] :=
  ⟨(update_next_run_time_spec _ 1 50).1.trans rfl,
   (update_next_run_time_spec _ 1 50).2.2.2,
   (update_next_run_time_spec _ 5 50).2.2.1 (by decide)⟩

/-- C7 counterexample: on a webhook URL whose query key also contains the
substring `send`, the code rewrites the query as well — the result differs
from the specified derivation (which alters only the terminal path
segment), so parts of the URL other than that segment ARE altered. -/
theorem upload_url_cex :
    upload_media_url "https://qyapi.weixin.qq.com/cgi-bin/webhook/send?key=send123"
      = "https://qyapi.weixin.qq.com/cgi-bin/webhook/upload_media?key=upload_media123&type=file" ∧
    specUploadUrl "https://qyapi.weixin.qq.com/cgi-bin/webhook/send?key=send123"
      = "https://qyapi.weixin.qq.com/cgi-bin/webhook/upload_media?key=send123&type=file" ∧
    ("https://qyapi.weixin.qq.com/cgi-bin/webhook/upload_media?key=upload_media123&type=file" : String)
      ≠ "https://qyapi.weixin.qq.com/cgi-bin/webhook/upload_media?key=send123&type=file" :=
  ⟨rfl, rfl, by decide⟩

/-- A prefix match only inspects the first `pat.length` characters. -/
lemma leadMatch_take (pat : List Char) : ∀ l, leadMatch pat l = leadMatch pat (l.take pat.length) := by
  induction pat with
  | nil => intro l; rfl
  | cons p ps ih =>
    intro l
    cases l with
    | nil => rfl
    | cons c cs =>
      simp only [List.length_cons, List.take_succ_cons, leadMatch]
      rw [ih cs]

/-- Truncating the right part does not change a short enough prefix. -/
lemma take_append_take (x y : List Char) (n m : Nat) (h : n ≤ x.length + m) :
    (x ++ y.take m).take n = (x ++ y).take n := by
  rw [List.take_append_eq_append_take, List.take_append_eq_append_take, List.take_take]
  congr 1
  rw [min_eq_left]
  omega

/-- A pattern matches at its own occurrence. -/
lemma leadMatch_append_self (pat : List Char) : ∀ t, leadMatch pat (pat ++ t) = true := by
  induction pat with
  | nil => intro t; rfl
  | cons p ps ih => intro t; simp [leadMatch, ih]

/-- The replace scan passes over a region in which no match starts. -/
lemma replGo_append (pat rep : List Char) :
    ∀ a rest fuel, (a ++ rest).length ≤ fuel →
      listHas pat (a ++ rest.take (pat.length - 1)) = false →
      replGo pat rep fuel (a ++ rest) = a ++ replGo pat rep (fuel - a.length) rest := by
  intro a
  induction a with
  | nil => intro rest fuel hf hh; simp
  | cons c a2 ih =>
    intro rest fuel hf hh
    cases fuel with
    | zero => simp at hf
    | succ f =>
      rw [List.cons_append, listHas, Bool.or_eq_false_iff] at hh
      have hlm : leadMatch pat (c :: (a2 ++ rest)) = false := by
        rw [leadMatch_take pat (c :: (a2 ++ rest))]
        have htk : (c :: (a2 ++ rest)).take pat.length
            = (c :: (a2 ++ rest.take (pat.length - 1))).take pat.length := by
          have := take_append_take (c :: a2) rest pat.length (pat.length - 1)
            (by simp [List.length_cons]; omega)
          simpa using this.symm
        rw [htk, ← leadMatch_take]
        exact hh.1
      rw [List.cons_append, replGo, if_neg (by simp [hlm])]
      rw [ih rest f (by simp at hf ⊢; omega) hh.2]
      simp only [List.length_cons, Nat.succ_sub_succ]
      rfl

/-- The replace scan substitutes at an occurrence of the pattern. -/
lemma replGo_at_match (p0 : Char) (prest rep tail : List Char) (fuel : Nat) (hf : 1 ≤ fuel) :
    replGo (p0 :: prest) rep fuel ((p0 :: prest) ++ tail)
      = rep ++ replGo (p0 :: prest) rep (fuel - 1) tail := by
  cases fuel with
  | zero => omega
  | succ f =>
    rw [List.cons_append, replGo, if_pos]
    · simp only [List.length_cons, Nat.succ_sub_succ, Nat.sub_zero]
      rw [List.drop_left prest tail]
    · rw [← List.cons_append]
      exact leadMatch_append_self (p0 :: prest) tail

/-- Appending `/sen` to a `send`-free prefix creates no `send` occurrence
(`send` has no self-overlap and none of its characters is `/`). -/
lemma sendExt (a : List Char) (ha : listHas "send".data a = false) :
    listHas "send".data (a ++ ['/', 's', 'e', 'n']) = false := by
  induction a with
  | nil => decide
  | cons c a2 ih =>
    rw [listHas, Bool.or_eq_false_iff] at ha
    rw [List.cons_append, listHas, Bool.or_eq_false_iff]
    refine ⟨?_, ih ha.2⟩
    rcases a2 with _ | ⟨d, _ | ⟨e2, _ | ⟨f, a5⟩⟩⟩
    · simp [leadMatch]
    · simp [leadMatch]
    · simp [leadMatch]
    · have := ha.1
      simp only [leadMatch, List.cons_append] at this ⊢
      exact this

/-- A leading `?` creates no `send` occurrence over a `send`-free tail. -/
lemma sendQmark (qd : List Char) (hq : listHas "send".data qd = false) :
    listHas "send".data ('?' :: qd) = false := by
  rw [listHas, Bool.or_eq_false_iff]
  exact ⟨by simp [leadMatch], hq⟩

/-- C7 (amended): `upload_media` derives its URL by replacing EVERY
occurrence of the substring `send` with `upload_media` and appending the
literal `&type=file`; when `send` occurs exactly once, as the terminal path
segment of a URL that already has a query string, this coincides with the
specified "replace the terminal path segment and add a `type=file`
parameter". -/
theorem upload_media_url_spec (p q : String)
    (hp : pyIn "send" p = false) (hq : pyIn "send" q = false) :
    upload_media_url (p ++ "/send?" ++ q) = p ++ "/upload_media?" ++ q ++ "&type=file" := by
  have hdata : (p ++ "/send?" ++ q).data
      = (p.data ++ ['/']) ++ ("send".data ++ ('?' :: q.data)) := by
    simp [String.data_append]
  have hstep1 : replGo "send".data "upload_media".data
      ((p.data ++ ['/']) ++ ("send".data ++ ('?' :: q.data))).length
      ((p.data ++ ['/']) ++ ("send".data ++ ('?' :: q.data)))
      = (p.data ++ ['/']) ++ replGo "send".data "upload_media".data
          (((p.data ++ ['/']) ++ ("send".data ++ ('?' :: q.data))).length
            - (p.data ++ ['/']).length)
          ("send".data ++ ('?' :: q.data)) := by
    apply replGo_append
    · exact le_rfl
    · show listHas "send".data (p.data ++ ['/'] ++ ['s', 'e', 'n']) = false
      have := sendExt p.data hp
      simpa using this
  have hlen : ((p.data ++ ['/']) ++ ("send".data ++ ('?' :: q.data))).length
      - (p.data ++ ['/']).length = 4 + (1 + q.data.length) := by
    simp
    omega
  have hstep2 : replGo "send".data "upload_media".data (4 + (1 + q.data.length))
      ("send".data ++ ('?' :: q.data))
      = "upload_media".data ++ replGo "send".data "upload_media".data
          (4 + (1 + q.data.length) - 1) ('?' :: q.data) :=
    replGo_at_match 's' ['e', 'n', 'd'] _ _ _ (by omega)
  have hstep3 : replGo "send".data "upload_media".data
      (4 + (1 + q.data.length) - 1) ('?' :: q.data) = '?' :: q.data :=
    replGo_id_of_not_has _ _ _ _ (sendQmark q.data hq)
  have hrepl : pyReplace (p ++ "/send?" ++ q) "send" "upload_media"
      = p ++ "/upload_media?" ++ q := by
    show String.mk (replGo "send".data "upload_media".data
        (p ++ "/send?" ++ q).data.length (p ++ "/send?" ++ q).data) = _
    rw [hdata, hstep1, hlen, hstep2, hstep3]
    show String.mk (p.data ++ ['/'] ++ ("upload_media".data ++ '?' :: q.data)) = _
    have hd2 : (p ++ "/upload_media?" ++ q).data
        = p.data ++ ['/'] ++ ("upload_media".data ++ '?' :: q.data) := by
      simp [String.data_append]
    rw [← hd2]
  unfold upload_media_url
  rw [hrepl]

/-- C7 witness: `upload_media_url_spec` applied at a concrete webhook URL
with a `send`-free prefix and query. -/
theorem upload_media_url_spec_witness :
    upload_media_url ("https://qyapi.weixin.qq.com/cgi-bin/webhook" ++ "/send?" ++ "key=abc123")
      = "https://qyapi.weixin.qq.com/cgi-bin/webhook" ++ "/upload_media?" ++ "key=abc123"
        ++ "&type=file" :=
  upload_media_url_spec "https://qyapi.weixin.qq.com/cgi-bin/webhook" "key=abc123"
    (by decide) (by decide)
